import Mathlib

/-!
# Verification of the bookstore session/authorization core

A shallow embedding, in Lean 4, of the session-authentication middleware
chain, the in-memory session store and the error-taxonomy translator of
the `thunder33345/bookstore` repository, together with theorems settling
the specification claims about them.

Conventions of the embedding:
* Go strings are Lean `String`s; `uuid.UUID` is `Nat`; `time.Time` is `Nat`.
* A Go multi-return `(T, error)` is a Lean pair `T × Option GoErr`
  (`none` = nil error); Go zero values are explicit (`Account.zero`,
  `Session.zero`).
* The shared `xsync.MapOf[string, Session]` session table is modelled
  extensionally as `String → Option Session`; each mutating method
  returns the updated table (explicit state passing, sequential
  semantics).
* Go's layered errors (`Unwrap` chains inspected via `errors.As`) are a
  single inductive `GoErr` whose wrapping constructors carry their cause.
-/

namespace Bookstore

/-! ## Data model (`models.go`) -/

/-- Embeds `bookstore.Account` from `models.go`: id, name, email, admin flag,
password hash and timestamps.  `uuid.UUID` and `time.Time` are both
modelled as `Nat`. -/
structure Account where
  id : Nat
  name : String
  email : String
  admin : Bool
  passwordHash : String
  createdAt : Nat
  updatedAt : Nat
  deriving DecidableEq, Repr

/-- The Go zero value `bookstore.Account{}`. -/
def Account.zero : Account :=
  { id := 0, name := "", email := "", admin := false, passwordHash := ""
    createdAt := 0, updatedAt := 0 }

/-- Embeds `bookstore.Session` from `models.go`: it embeds `Account` and nothing
else. -/
structure Session where
  account : Account
  deriving DecidableEq, Repr

/-- The Go zero value `bookstore.Session{}`. -/
def Session.zero : Session := ⟨Account.zero⟩

/-- Go field promotion: `session.ID` resolves to the embedded
`Account.ID`. -/
def Session.id (s : Session) : Nat := s.account.id

/-- Go field promotion: `session.Admin` resolves to the embedded
`Account.Admin`. -/
def Session.admin (s : Session) : Bool := s.account.admin

/-! ## The layered error values (`errors.go`, package `bookstore`)

The repository wraps storage errors in typed wrapper structs
(`NoResultError`, `DuplicateError`, `DependedError`,
`InvalidDependencyError`, `NonExistentIDError`), each carrying a resource
name and an `Unwrap`-able cause, plus plain sentinels made with
`errors.New`.  We model the whole error universe as one inductive; a
wrapping constructor's `GoErr` argument is its `Unwrap` result, and
`nilErr` stands for a nil cause (the end of an `Unwrap` chain). -/

inductive GoErr where
  /-- the absence of a wrapped cause (`Unwrap` returned nil) -/
  | nilErr : GoErr
  /-- Embeds `bookstore.NoResultError{resource, err}` -/
  | noResult (resource : String) (cause : GoErr) : GoErr
  /-- Embeds `bookstore.DuplicateError{resourceType, err}` -/
  | duplicate (resourceType : String) (cause : GoErr) : GoErr
  /-- Embeds `bookstore.DependedError{resource, err}` -/
  | depended (resource : String) (cause : GoErr) : GoErr
  /-- Embeds `bookstore.InvalidDependencyError{resource, err}` -/
  | invalidDependency (resource : String) (cause : GoErr) : GoErr
  /-- Embeds `bookstore.NonExistentIDError{resourceType, err}` -/
  | nonExistentID (resourceType : String) (cause : GoErr) : GoErr
  /-- an `errors.New` sentinel or any other error with no `Unwrap` -/
  | sentinel (msg : String) : GoErr
  /-- an `fmt.Errorf("...: %w", cause)` wrapper -/
  | wrapped (msg : String) (cause : GoErr) : GoErr
  deriving DecidableEq, Repr

/-- Embeds `bookstore.ErrMissingSession = errors.New("missing session token")`. -/
def errMissingSession : GoErr := .sentinel "missing session token"

/-- Embeds `bookstore.ErrMalformedSession = errors.New("malformed session token provided")`. -/
def errMalformedSession : GoErr := .sentinel "malformed session token provided"

/-- Embeds `bookstore.ErrInvalidSession = errors.New("invalid session token provided")`. -/
def errInvalidSession : GoErr := .sentinel "invalid session token provided"

/-- The `Error()` string of each error value, as implemented by the
wrapper types in package `bookstore` (`"%s does not exist"`,
`"%s already exist"`, `"%s is being depended by other books"`,
`"invalid value on books.%s"`, `` `nonexistent ID given in "after" while
paging on %s` ``). -/
def GoErr.errorString : GoErr → String
  | .nilErr => ""
  | .noResult r _ => r ++ " does not exist"
  | .duplicate r _ => r ++ " already exist"
  | .depended r _ => r ++ " is being depended by other books"
  | .invalidDependency r _ => "invalid value on books." ++ r
  | .nonExistentID r _ => "nonexistent ID given in \"after\" while paging on " ++ r
  | .sentinel m => m
  | .wrapped m _ => m

/-- The five wrapper kinds recognised by the error-taxonomy translator. -/
inductive Kind where
  | noResult | duplicate | depended | invalidDependency | nonExistentID
  deriving DecidableEq, Repr

/-- The wrapper kind of the outermost error node, if it is one of the five
recognised wrapper types. -/
def GoErr.kindOf : GoErr → Option Kind
  | .noResult _ _ => some .noResult
  | .duplicate _ _ => some .duplicate
  | .depended _ _ => some .depended
  | .invalidDependency _ _ => some .invalidDependency
  | .nonExistentID _ _ => some .nonExistentID
  | _ => none

/-- Embeds `errors.As(err, &target)` for a target of wrapper kind `k`: walk the
`Unwrap` chain from the outside in and return the first node of that
kind. -/
def errorsAs (k : Kind) : GoErr → Option GoErr
  | .nilErr => none
  | .noResult r c =>
      if k = .noResult then some (.noResult r c) else errorsAs k c
  | .duplicate r c =>
      if k = .duplicate then some (.duplicate r c) else errorsAs k c
  | .depended r c =>
      if k = .depended then some (.depended r c) else errorsAs k c
  | .invalidDependency r c =>
      if k = .invalidDependency then some (.invalidDependency r c)
      else errorsAs k c
  | .nonExistentID r c =>
      if k = .nonExistentID then some (.nonExistentID r c) else errorsAs k c
  | .sentinel _ => none
  | .wrapped _ c => errorsAs k c

/-! ## The wire-level error shape (`http/rest/error.go`) -/

/-- Embeds `rest.ErrResponse`: internal error and status plus the two
client-visible strings. -/
structure ErrResponse where
  err : Option GoErr
  httpStatusCode : Nat
  messageText : String
  errorText : String
  deriving DecidableEq, Repr

/-- Embeds `rest.ErrForbidden = &ErrResponse{HTTPStatusCode: 403, MessageText: "Forbidden."}`. -/
def ErrForbidden : ErrResponse :=
  { err := none, httpStatusCode := 403, messageText := "Forbidden.", errorText := "" }

/-- Embeds `rest.ErrUnauthorized = &ErrResponse{HTTPStatusCode: 401, MessageText: "Unauthorized."}`. -/
def ErrUnauthorized : ErrResponse :=
  { err := none, httpStatusCode := 401, messageText := "Unauthorized.", errorText := "" }

/-- Embeds `rest.ErrQueryResponse` from `http/rest/error.go`: start from the 500
"Unhandled error." envelope, then run the five `errors.As` checks in
source order — `NoResultError` (404), `DuplicateError` (400),
`DependedError` (409), `InvalidDependencyError` (400),
`NonExistentIDError` (404) — each matching check overwriting the status
code and message; there is no early return between the checks. -/
def ErrQueryResponse (err : GoErr) : ErrResponse :=
  let e : ErrResponse :=
    { err := some err, httpStatusCode := 500
      messageText := "Unhandled error.", errorText := err.errorString }
  let e := match errorsAs .noResult err with
    | some m => { e with httpStatusCode := 404, messageText := m.errorString }
    | none => e
  let e := match errorsAs .duplicate err with
    | some m => { e with httpStatusCode := 400, messageText := m.errorString }
    | none => e
  let e := match errorsAs .depended err with
    | some m => { e with httpStatusCode := 409, messageText := m.errorString }
    | none => e
  let e := match errorsAs .invalidDependency err with
    | some m => { e with httpStatusCode := 400, messageText := m.errorString }
    | none => e
  let e := match errorsAs .nonExistentID err with
    | some m => { e with httpStatusCode := 404, messageText := m.errorString }
    | none => e
  e

/-! ## The in-memory session store (`auth/session/memory.go`)

`session.Memory` owns an `xsync.MapOf[string, bookstore.Session]`.  We
model the table extensionally as a map from token to session; each Go
method `func (a *Memory) M(...) ... error` becomes a function returning
the updated table together with the (always nil) returned error. -/

/-- The session table owned by `session.Memory`. -/
def Memory : Type := String → Option Session

/-- Embeds `session.NewMemory()`: the empty table. -/
def Memory.new : Memory := fun _ => none

/-- Embeds `Memory.StoreSession`: `a.ses.Store(token, bookstore.Session{Account: account})`
— unconditional insert/overwrite — then `return nil`. -/
def Memory.StoreSession (m : Memory) (token : String) (account : Account) :
    Memory × Option GoErr :=
  (fun t => if t = token then some ⟨account⟩ else m t, none)

/-- Embeds `Memory.GetSession`: `Load(token)`; on a miss return
`(bookstore.Session{}, bookstore.ErrInvalidSession)`. -/
def Memory.GetSession (m : Memory) (token : String) : Session × Option GoErr :=
  match m token with
  | some ses => (ses, none)
  | none => (Session.zero, some errInvalidSession)

/-- Embeds `Memory.DeleteSession`: `a.ses.Delete(token); return nil`. -/
def Memory.DeleteSession (m : Memory) (token : String) : Memory × Option GoErr :=
  (fun t => if t = token then none else m t, none)

/-- Embeds `Memory.DeleteSessionsFor`: `Range` over the table deleting every key
whose session has `s.ID == accountID` (the promoted `Account.ID`), then
`return nil`.  The range-and-delete loop is modelled by its resulting
table: the entries whose session id equals `accountID` removed, all
others untouched. -/
def Memory.DeleteSessionsFor (m : Memory) (accountID : Nat) :
    Memory × Option GoErr :=
  (fun t => match m t with
    | some s => if s.id = accountID then none else some s
    | none => none, none)

/-! ## The `Auth` facade (`auth/auth.go`)

`Auth` delegates session operations to its `session` collaborator; in
the repository's wiring that collaborator is `session.Memory`, so we
instantiate the delegation with the `Memory` model.  The random token
drawn by `randstr.Base62(16)` inside `CreateSession` is passed in as an
explicit argument (the random source modelled as an oracle). -/

/-- Embeds `Auth.GetSession`: delegate to the session store. -/
def Auth.GetSession (m : Memory) (token : String) : Session × Option GoErr :=
  Memory.GetSession m token

/-- Embeds `Auth.CreateSession`: draw `sessionToken` (`randstr.Base62(16)`,
here an oracle argument), `StoreSession` it, return `("", err)` on error
and `(sessionToken, err)` otherwise. -/
def Auth.CreateSession (m : Memory) (sessionToken : String) (account : Account) :
    Memory × String × Option GoErr :=
  let res := Memory.StoreSession m sessionToken account
  match res.2 with
  | some e => (res.1, "", some e)
  | none => (res.1, sessionToken, res.2)

/-- Embeds `Auth.DeleteSession`: delegate to the session store. -/
def Auth.DeleteSession (m : Memory) (token : String) : Memory × Option GoErr :=
  Memory.DeleteSession m token

/-- Embeds `Auth.DeleteSessionFor`: delegate to the session store's
`DeleteSessionsFor`. -/
def Auth.DeleteSessionFor (m : Memory) (user : Nat) : Memory × Option GoErr :=
  Memory.DeleteSessionsFor m user

/-! ## The authorization middlewares (`http/rest/middlewares.go`)

A request is modelled by the pieces the middlewares read and write: the
`Authorization` header (Go's `Header.Get` yields `""` when the header is
absent) and the two context values installed under the keys `"user"` and
`"token"`. -/

/-- The slice of an `*http.Request` the session middlewares touch:
`r.Header.Get("Authorization")` and the context values at keys `"user"`
and `"token"`. -/
structure Request where
  authorization : String
  ctxUser : Option Session
  ctxToken : Option String
  deriving DecidableEq, Repr

/-- Embeds `rest.GetSession(ctx)`: the type-asserted context value under key
`"user"`. -/
def GetSession (r : Request) : Option Session := r.ctxUser

/-- Embeds `strings.HasPrefix(s, pre)`, computed on the character lists (for
UTF-8 strings a whole-character prefix coincides with Go's byte-level
prefix test). -/
def hasPrefix (s pre : String) : Bool := pre.toList.isPrefixOf s.toList

/-- Embeds `strings.TrimLeft(s, cutset)`: remove the maximal leading run of
characters that occur anywhere in `cutset` (a character-set trim, not a
prefix trim). -/
def trimLeft (s cutset : String) : String :=
  String.mk (s.toList.dropWhile (fun c => cutset.toList.contains c))

/-- Embeds `Handler.populateSession` from `http/rest/middlewares.go`:
if the context already holds a session, return the request unchanged with
that session; otherwise read the `Authorization` header (`ErrMissingSession`
if empty), require the `"Bearer "` prefix (`ErrMalformedSession` otherwise),
strip `strings.TrimLeft(ah, "Bearer ")`, look the result up via
`h.auth.GetSession`, propagate its error, and on success install the
session and token into the request context. -/
def populateSession (m : Memory) (r : Request) :
    Request × Session × Option GoErr :=
  match GetSession r with
  | some ses => (r, ses, none)
  | none =>
    let ah := r.authorization
    if ah = "" then (r, Session.zero, some errMissingSession)
    else if ¬ hasPrefix ah "Bearer " then
      (r, Session.zero, some errMalformedSession)
    else
      let ah := trimLeft ah "Bearer "
      let res := Auth.GetSession m ah
      match res.2 with
      | some e => (r, Session.zero, some e)
      | none =>
        ({ r with ctxUser := some res.1, ctxToken := some ah }, res.1, none)

/-- Modelled from the spec: `rest.ErrSessionResponse` is referenced by the
middlewares but its definition is not among the provided source files.
Spec §4.2 fixes its behaviour: `MissingSession`, `MalformedSession` and
`InvalidSession` "all surface as an unauthorized outcome (same externally
visible class)", i.e. an HTTP 401 envelope carrying the cause. -/
def ErrSessionResponse (err : GoErr) : ErrResponse :=
  { err := some err, httpStatusCode := 401
    messageText := "Unauthorized.", errorText := err.errorString }

/-- What a middleware does with one request: either it renders an error
response and returns without calling `next.ServeHTTP` (`rejected`), or it
invokes the downstream handler with the possibly-rewritten request
(`passed`). -/
inductive MwOutcome where
  | rejected (resp : ErrResponse) : MwOutcome
  | passed (r : Request) : MwOutcome
  deriving DecidableEq, Repr

/-- Embeds `Handler.MiddlewareAuthenticatedOnly`: populate the session; on error
render `ErrSessionResponse(err)` and stop, otherwise call the downstream
handler with the updated request. -/
def MiddlewareAuthenticatedOnly (m : Memory) (r : Request) : MwOutcome :=
  let res := populateSession m r
  match res.2.2 with
  | some e => .rejected (ErrSessionResponse e)
  | none => .passed res.1

/-- Embeds `Handler.MiddlewareAdminOnly`: populate the session; on error render
`ErrSessionResponse(err)` and stop; if `account.Admin == false` render
`ErrForbidden` and stop; otherwise call the downstream handler. -/
def MiddlewareAdminOnly (m : Memory) (r : Request) : MwOutcome :=
  let res := populateSession m r
  match res.2.2 with
  | some e => .rejected (ErrSessionResponse e)
  | none =>
    if res.2.1.admin = false then .rejected ErrForbidden
    else .passed res.1

/-- Chaining two middlewares: the outer one runs first; only if it passes
does the inner one see the (rewritten) request. -/
def chain (mw₁ mw₂ : Request → MwOutcome) (r : Request) : MwOutcome :=
  match mw₁ r with
  | .rejected e => .rejected e
  | .passed r' => mw₂ r'

/-! ## Password hashing (`auth/auth.go` over `golang.org/x/crypto/bcrypt`)

`Auth.Hash` and `Auth.Validate` delegate to the external bcrypt library,
which is not part of this repository.  We model the bcrypt core from its
published algorithm: the digest is a deterministic function of the cost,
the random salt embedded in the hash, and the password truncated to its
first 72 bytes (the blowfish key schedule consumes at most 72 key bytes,
and `CompareHashAndPassword` recomputes the digest from the stored salt
and cost).  The digest is represented abstractly by that determining
triple, i.e. an ideal collision-free bcrypt core with the real 72-byte
truncation.  Plaintext passwords are byte lists (`[]byte(password)`). -/

/-- A bcrypt hash string, abstracted to the data that determines it:
the cost, the embedded salt, and the password truncated to 72 bytes. -/
structure BcryptHash where
  cost : Nat
  salt : Nat
  key : List Nat
  deriving DecidableEq, Repr

/-- Embeds `bcrypt.ErrMismatchedHashAndPassword`. -/
def errMismatchedHashAndPassword : GoErr :=
  .sentinel "crypto/bcrypt: hashedPassword is not the hash of the given password"

/-- Embeds `bcrypt.GenerateFromPassword` with the salt drawn by the library made
an explicit oracle argument: digest of the first 72 password bytes under
the given cost and salt. -/
def bcryptGenerateFromPassword (password : List Nat) (cost salt : Nat) :
    BcryptHash :=
  ⟨cost, salt, password.take 72⟩

/-- Embeds `bcrypt.CompareHashAndPassword`: recompute the digest from the hash's
embedded salt and cost and the supplied password; nil on match,
`ErrMismatchedHashAndPassword` otherwise. -/
def bcryptCompareHashAndPassword (hash : BcryptHash) (password : List Nat) :
    Option GoErr :=
  if bcryptGenerateFromPassword password hash.cost hash.salt = hash then none
  else some errMismatchedHashAndPassword

/-- Embeds `Auth.Hash`: `bcrypt.GenerateFromPassword([]byte(password), a.pwCost)`;
the library never fails for an in-range cost, so the returned error is
nil. -/
def Auth.Hash (pwCost salt : Nat) (password : List Nat) :
    BcryptHash × Option GoErr :=
  (bcryptGenerateFromPassword password pwCost salt, none)

/-- Embeds `Auth.Validate`: `bcrypt.CompareHashAndPassword`; a mismatch yields
`(false, nil)`, any other error is propagated as `(false, err)`, a match
yields `(true, nil)`. -/
def Auth.Validate (hash : BcryptHash) (password : List Nat) :
    Bool × Option GoErr :=
  match bcryptCompareHashAndPassword hash password with
  | some e =>
      if e = errMismatchedHashAndPassword then (false, none) else (false, some e)
  | none => (true, none)

/-! ## Rendered account bodies (`http/rest/user.go`, `models.go`)

`render.Render` first calls the value's `Render` hook, then marshals it
with `encoding/json`.  We model the marshalled body as an ordered
key/value list.  Per `encoding/json`'s field rules for
`UserAccountResponse{*bookstore.Account; ProtectedHash string
json:"password,omitempty"}`: the promoted `Account.PasswordHash`
(tag `"password,omitempty"`, depth 2) is shadowed by the shallower
`ProtectedHash` (depth 1) under the same name, so the account's stored
hash is never the source of the `password` key; `omitempty` drops the
key entirely when `ProtectedHash` is empty. -/

/-- A marshalled JSON value, as deep as these bodies need: a string, or a
flat object of string-rendered fields. -/
inductive JVal where
  | s (v : String) : JVal
  | o (fields : List (String × String)) : JVal
  deriving DecidableEq, Repr

/-- Embeds `encoding/json` of a bare `bookstore.Account` per the tags in
`models.go`: `ID`, `name`, `email`, `admin`,
`password,omitempty` (from `PasswordHash`), `created_at`, `updated_at`. -/
def marshalAccount (a : Account) : List (String × String) :=
  [("ID", toString a.id), ("name", a.name), ("email", a.email),
   ("admin", cond a.admin "true" "false")]
  ++ (if a.passwordHash = "" then [] else [("password", a.passwordHash)])
  ++ [("created_at", toString a.createdAt), ("updated_at", toString a.updatedAt)]

/-- Embeds `rest.UserAccountResponse`: the account plus the shadowing
`ProtectedHash` field (tag `"password,omitempty"`). -/
structure UserAccountResponse where
  account : Account
  protectedHash : String
  deriving DecidableEq, Repr

/-- Embeds `rest.NewUserAccountResponse`: wrap the account; `ProtectedHash`
starts at its zero value `""`. -/
def NewUserAccountResponse (account : Account) : UserAccountResponse :=
  ⟨account, ""⟩

/-- Embeds `UserAccountResponse.Render`: set `ProtectedHash` to `""`. -/
def UserAccountResponse.render (u : UserAccountResponse) : UserAccountResponse :=
  { u with protectedHash := "" }

/-- Embeds `encoding/json` of `UserAccountResponse`: the promoted account fields
(`PasswordHash` shadowed by `ProtectedHash`, see above), then the
`password` key from `ProtectedHash` unless empty. -/
def marshalUserAccountResponse (u : UserAccountResponse) :
    List (String × String) :=
  [("ID", toString u.account.id), ("name", u.account.name),
   ("email", u.account.email), ("admin", cond u.account.admin "true" "false"),
   ("created_at", toString u.account.createdAt),
   ("updated_at", toString u.account.updatedAt)]
  ++ (if u.protectedHash = "" then [] else [("password", u.protectedHash)])

/-- Embeds `rest.SessionCreateResponse`: token plus the full account value. -/
structure SessionCreateResponse where
  token : String
  account : Account
  deriving DecidableEq, Repr

/-- Embeds `rest.NewSessionCreateResponse`. -/
def NewSessionCreateResponse (token : String) (account : Account) :
    SessionCreateResponse :=
  ⟨token, account⟩

/-- Embeds `SessionCreateResponse.Render`: blank the account's `PasswordHash`. -/
def SessionCreateResponse.render (sc : SessionCreateResponse) :
    SessionCreateResponse :=
  { sc with account := { sc.account with passwordHash := "" } }

/-- Embeds `encoding/json` of `SessionCreateResponse`: the token and the nested
account object. -/
def marshalSessionCreateResponse (sc : SessionCreateResponse) :
    List (String × JVal) :=
  [("token", .s sc.token), ("account", .o (marshalAccount sc.account))]

/-- The wire body `render.Render` produces for a `UserAccountResponse`
built from `account`: `Render` hook, then marshal. -/
def renderUserAccountBody (account : Account) : List (String × String) :=
  marshalUserAccountResponse (NewUserAccountResponse account).render

/-- The wire body `render.Render` produces for a `SessionCreateResponse`:
`Render` hook, then marshal. -/
def renderSessionCreateBody (token : String) (account : Account) :
    List (String × JVal) :=
  marshalSessionCreateResponse (NewSessionCreateResponse token account).render

/-! ## Spec-side vocabulary for the error taxonomy

Definitions written from the specification's words (not from the source),
used to state the priority-order claim about `ErrQueryResponse` and to
compare it with what the source computes. -/

/-- The documented priority order of the recognised kinds: the order of
the spec's §4.3 table, which is also the textual order of the checks in
`ErrQueryResponse`. -/
def specKindOrder : List Kind :=
  [.noResult, .duplicate, .depended, .invalidDependency, .nonExistentID]

/-- The status code the spec's table assigns to each recognised kind. -/
def kindStatus : Kind → Nat
  | .noResult => 404
  | .duplicate => 400
  | .depended => 409
  | .invalidDependency => 400
  | .nonExistentID => 404

/-- The recognised kinds an error's wrapped chain matches, listed in the
documented priority order. -/
def matchingKinds (err : GoErr) : List Kind :=
  specKindOrder.filter (fun k => (errorsAs k err).isSome)

/-- From the spec's words: the first matching kind in the documented
priority order ("the first matching kind wins"). -/
def specFirstMatchKind (err : GoErr) : Option Kind :=
  (matchingKinds err).head?

/-- The last matching kind in the documented order — what the source
actually lets win, since each later matching `errors.As` block overwrites
the earlier ones. -/
def lastMatchKind (err : GoErr) : Option Kind :=
  (matchingKinds err).getLast?

/-! ## Concrete fixtures used by counterexamples and witnesses -/

/-- A non-admin account used by witnesses. -/
def accUser : Account :=
  { id := 7, name := "alice", email := "alice@example.com", admin := false
    passwordHash := "h1", createdAt := 1, updatedAt := 2 }

/-- An admin account used by witnesses. -/
def accAdmin : Account :=
  { id := 9, name := "root", email := "root@example.com", admin := true
    passwordHash := "h2", createdAt := 3, updatedAt := 4 }

/-- A session table holding the token `"abc"` for `accUser` and the token
`"tok1"` for `accAdmin`. -/
def memFixture : Memory :=
  fun t =>
    if t = "abc" then some ⟨accUser⟩
    else if t = "tok1" then some ⟨accAdmin⟩
    else if t = "tok2" then some ⟨accUser⟩
    else none

/-- A request presenting `Authorization: Bearer abc` with an empty
context. -/
def reqBearerAbc : Request := ⟨"Bearer abc", none, none⟩

/-- A request presenting `Authorization: Bearer tok1` with an empty
context. -/
def reqBearerTok1 : Request := ⟨"Bearer tok1", none, none⟩

/-- A request presenting `Authorization: Bearer tok2` with an empty
context. -/
def reqBearerTok2 : Request := ⟨"Bearer tok2", none, none⟩

/-- An error whose wrapped chain matches two recognised kinds: a
`DuplicateError` for `"genre"` wrapping a `NoResultError` for `"book"`. -/
def errDupeWrappingNoRes : GoErr :=
  .duplicate "genre" (.noResult "book" .nilErr)

/-- A 72-byte password (72 times the byte `0x61`, i.e. `"a"` repeated). -/
def pw72 : List Nat := List.replicate 72 97

/-- A 73-byte password agreeing with `pw72` on its first 72 bytes. -/
def pw73 : List Nat := List.replicate 72 97 ++ [98]

/-! ## Helper lemmas -/

/-- Characterisation of `ErrQueryResponse`: because the five `errors.As`
blocks run in sequence with no early return, the envelope is determined
by the last matching kind in the check order (500 and the generic message
when nothing matches). -/
theorem errQueryResponse_eq (err : GoErr) :
    ErrQueryResponse err =
      match lastMatchKind err with
      | some k =>
          { err := some err, httpStatusCode := kindStatus k
            messageText := ((errorsAs k err).getD .nilErr).errorString
            errorText := err.errorString }
      | none =>
          { err := some err, httpStatusCode := 500
            messageText := "Unhandled error.", errorText := err.errorString } := by
  unfold ErrQueryResponse lastMatchKind matchingKinds specKindOrder
  rcases h1 : errorsAs Kind.noResult err with _ | e1 <;>
    rcases h2 : errorsAs Kind.duplicate err with _ | e2 <;>
      rcases h3 : errorsAs Kind.depended err with _ | e3 <;>
        rcases h4 : errorsAs Kind.invalidDependency err with _ | e4 <;>
          rcases h5 : errorsAs Kind.nonExistentID err with _ | e5 <;>
            simp [h1, h2, h3, h4, h5, List.filter, List.getLast?, kindStatus]

/-- If the request context already carries a session, `populateSession`
returns the request unchanged with that session and no error. -/
theorem populateSession_of_ctxUser (m : Memory) (r : Request) (ses : Session)
    (h : r.ctxUser = some ses) : populateSession m r = (r, ses, none) := by
  unfold populateSession GetSession
  rw [h]

/-- When `populateSession` succeeds, the returned request's context
carries the returned session. -/
theorem populateSession_ok_ctxUser (m : Memory) (r : Request)
    (h : (populateSession m r).2.2 = none) :
    (populateSession m r).1.ctxUser = some (populateSession m r).2.1 := by
  rcases hctx : GetSession r with _ | ses
  · unfold populateSession at h ⊢
    rw [hctx] at h ⊢
    by_cases ha : r.authorization = ""
    · simp [ha] at h
    · by_cases hp : hasPrefix r.authorization "Bearer "
      · rcases hg : (Auth.GetSession m (trimLeft r.authorization "Bearer ")).2
          with _ | e
        · simp [ha, hp, hg]
        · simp [ha, hp, hg] at h
      · simp [ha, hp] at h
  · rw [populateSession_of_ctxUser m r ses hctx]
    exact hctx

/-! ## Claim theorems -/

/-- C1: the middleware's Authorization handling matches the claim for the
absent-header and missing-prefix cases, but not for token extraction.
The code uses `strings.TrimLeft(ah, "Bearer ")` — a character-set trim —
instead of stripping the seven-character prefix, contradicting the
documented algorithm ("require an exact Bearer prefix; resolve the
remaining token"): with the token `"abc"` stored in the session table and
the header `Bearer abc`, the remainder after the seven-character prefix
is `"abc"`, yet the code also strips the leading `a` (it is in the cutset
`{B,e,a,r,space}`), looks up `"bc"`, and rejects the request with
`InvalidSession` even though the session exists. -/
theorem c1_trimleft_breaks_token_extraction :
    memFixture "abc" = some ⟨accUser⟩ ∧
    hasPrefix reqBearerAbc.authorization "Bearer " = true ∧
    reqBearerAbc.authorization.toList.drop 7 = "abc".toList ∧
    trimLeft reqBearerAbc.authorization "Bearer " = "bc" ∧
    populateSession memFixture reqBearerAbc
      = (reqBearerAbc, Session.zero, some errInvalidSession) ∧
    MiddlewareAuthenticatedOnly memFixture reqBearerAbc
      = .rejected (ErrSessionResponse errInvalidSession) := by
  decide

/-- C2 counterexample: for a `DuplicateError` wrapping a `NoResultError`
the first matching kind in the documented priority order is `NoResult`
(mapped to 404 by the table), but `ErrQueryResponse` answers 400 with the
duplicate's message — the last matching check wins, not the first. -/
theorem c2_counterexample_first_match_loses :
    specFirstMatchKind errDupeWrappingNoRes = some Kind.noResult ∧
    kindStatus Kind.noResult = 404 ∧
    (ErrQueryResponse errDupeWrappingNoRes).httpStatusCode = 400 ∧
    (ErrQueryResponse errDupeWrappingNoRes).httpStatusCode ≠ 404 ∧
    (ErrQueryResponse errDupeWrappingNoRes).messageText = "genre already exist" := by
  decide

/-- C2 (amended): for every error value, the externally visible outcome of
the translator is determined by the **last** matching kind in the check
order (`NoResult`, `Duplicate`, `Depended`, `InvalidDependency`,
`NonExistentID`), with the table's status and that match's message, and
500 with the generic message when no kind matches; being a function of the
error value, the outcome is unique and deterministic. -/
theorem c2_last_matching_kind_wins (err : GoErr) :
    (ErrQueryResponse err).httpStatusCode =
      (match lastMatchKind err with
       | some k => kindStatus k
       | none => 500) ∧
    (ErrQueryResponse err).messageText =
      (match lastMatchKind err with
       | some k => ((errorsAs k err).getD .nilErr).errorString
       | none => "Unhandled error.") := by
  rw [errQueryResponse_eq]
  rcases lastMatchKind err with _ | k <;> simp

/-- C3: whenever `populateSession` resolves a session whose admin flag is
false, the admin-only middleware renders `ErrForbidden` (HTTP 403, not
the 401 unauthorized outcome) and does not invoke the downstream
handler. -/
theorem c3_admin_gate_forbidden (m : Memory) (r r' : Request) (s : Session)
    (hres : populateSession m r = (r', s, none)) (hadm : s.admin = false) :
    MiddlewareAdminOnly m r = .rejected ErrForbidden ∧
    ErrForbidden.httpStatusCode = 403 ∧
    ErrForbidden.httpStatusCode ≠ 401 := by
  refine ⟨?_, by decide, by decide⟩
  unfold MiddlewareAdminOnly
  rw [hres]
  simp [hadm]

/-- Witness for C3 at a concrete input: the fixture table resolves
`Bearer tok2` to the non-admin `accUser`, and the middleware rejects with
`ErrForbidden`. -/
theorem c3_admin_gate_forbidden_witness :
    MiddlewareAdminOnly memFixture reqBearerTok2 = .rejected ErrForbidden ∧
    ErrForbidden.httpStatusCode = 403 ∧
    ErrForbidden.httpStatusCode ≠ 401 :=
  c3_admin_gate_forbidden memFixture reqBearerTok2
    ⟨"Bearer tok2", some ⟨accUser⟩, some "tok2"⟩ ⟨accUser⟩ (by decide) (by decide)

/-- C4: after `DeleteSessionsFor(A)` (which returns nil), `GetSession` on
any token whose stored session carries account id `A` yields the
not-found outcome (`bookstore.Session{}` plus `ErrInvalidSession`), while
every session stored under a different account id is still present and
unchanged. -/
theorem c4_delete_sessions_for_account (m : Memory) (A : Nat) (t : String)
    (s : Session) (hs : m t = some s) :
    (Memory.DeleteSessionsFor m A).2 = none ∧
    (s.id = A →
      Memory.GetSession (Memory.DeleteSessionsFor m A).1 t
        = (Session.zero, some errInvalidSession)) ∧
    (s.id ≠ A →
      (Memory.DeleteSessionsFor m A).1 t = m t ∧
      Memory.GetSession (Memory.DeleteSessionsFor m A).1 t = (s, none)) := by
  refine ⟨rfl, ?_, ?_⟩ <;> intro h <;>
    simp [Memory.DeleteSessionsFor, Memory.GetSession, hs, h]

/-- Witness for C4 at a concrete input: deleting account 7's sessions
invalidates the token `"abc"` (stored for account 7) and leaves the token
`"tok1"` (stored for account 9) resolving unchanged. -/
theorem c4_delete_sessions_for_account_witness :
    Memory.GetSession (Memory.DeleteSessionsFor memFixture 7).1 "abc"
      = (Session.zero, some errInvalidSession) ∧
    Memory.GetSession (Memory.DeleteSessionsFor memFixture 7).1 "tok1"
      = (⟨accAdmin⟩, none) :=
  ⟨(c4_delete_sessions_for_account memFixture 7 "abc" ⟨accUser⟩
      (by decide)).2.1 (by decide),
   ((c4_delete_sessions_for_account memFixture 7 "tok1" ⟨accAdmin⟩
      (by decide)).2.2 (by decide)).2⟩

/-- C5: `DeleteSession` returns nil for every token (present or absent),
`GetSession` after it yields the not-found outcome, and deleting twice
equals deleting once. -/
theorem c5_delete_session_idempotent (m : Memory) (t : String) :
    (Memory.DeleteSession m t).2 = none ∧
    Memory.GetSession (Memory.DeleteSession m t).1 t
      = (Session.zero, some errInvalidSession) ∧
    Memory.DeleteSession (Memory.DeleteSession m t).1 t
      = Memory.DeleteSession m t := by
  refine ⟨rfl, ?_, ?_⟩
  · simp [Memory.DeleteSession, Memory.GetSession]
  · unfold Memory.DeleteSession
    congr 1
    funext t'
    by_cases h : t' = t <;> simp [h]

/-- C6: a request whose context already carries a resolved principal is
returned unchanged by `populateSession`, whose result then depends
neither on the session table nor on the Authorization header; hence once
the authenticated-only middleware has passed a request on, the admin-only
middleware behind it resolves nothing anew — its outcome is independent
of the session-manager state it would consult. -/
theorem c6_session_resolution_idempotent :
    (∀ (m : Memory) (r : Request) (ses : Session), r.ctxUser = some ses →
        populateSession m r = (r, ses, none)) ∧
    (∀ (m₁ m₂ : Memory) (h₁ h₂ : String) (r : Request) (ses : Session),
        r.ctxUser = some ses →
        (populateSession m₁ { r with authorization := h₁ }).2
          = (populateSession m₂ { r with authorization := h₂ }).2 ∧
        (populateSession m₁ { r with authorization := h₁ }).1.ctxUser
          = (populateSession m₂ { r with authorization := h₂ }).1.ctxUser ∧
        (populateSession m₁ { r with authorization := h₁ }).1.ctxToken
          = (populateSession m₂ { r with authorization := h₂ }).1.ctxToken) ∧
    (∀ (m m₂ m₃ : Memory) (r r' : Request),
        MiddlewareAuthenticatedOnly m r = .passed r' →
        MiddlewareAdminOnly m₂ r' = MiddlewareAdminOnly m₃ r') := by
  refine ⟨populateSession_of_ctxUser, ?_, ?_⟩
  · intro m₁ m₂ h₁ h₂ r ses h
    rw [populateSession_of_ctxUser m₁ { r with authorization := h₁ } ses h,
      populateSession_of_ctxUser m₂ { r with authorization := h₂ } ses h]
    exact ⟨rfl, rfl, rfl⟩
  · intro m m₂ m₃ r r' hpass
    unfold MiddlewareAuthenticatedOnly at hpass
    rcases hres : (populateSession m r).2.2 with _ | e
    · simp only [hres, MwOutcome.passed.injEq] at hpass
      have hctx := populateSession_ok_ctxUser m r hres
      rw [hpass] at hctx
      unfold MiddlewareAdminOnly
      rw [populateSession_of_ctxUser m₂ r' _ hctx,
        populateSession_of_ctxUser m₃ r' _ hctx]
    · exact absurd hpass (by simp [hres])

/-- Witness for C6 at concrete inputs: a context-carried session is
returned untouched whatever the table, and after the authenticated-only
middleware passes `Bearer tok1` on, the admin-only middleware gives the
same outcome over the fixture table as over the empty table. -/
theorem c6_session_resolution_idempotent_witness :
    populateSession Memory.new ⟨"", some ⟨accUser⟩, none⟩
      = (⟨"", some ⟨accUser⟩, none⟩, ⟨accUser⟩, none) ∧
    MiddlewareAdminOnly memFixture ⟨"Bearer tok1", some ⟨accAdmin⟩, some "tok1"⟩
      = MiddlewareAdminOnly Memory.new ⟨"Bearer tok1", some ⟨accAdmin⟩, some "tok1"⟩ :=
  ⟨c6_session_resolution_idempotent.1 Memory.new _ ⟨accUser⟩ rfl,
   c6_session_resolution_idempotent.2.2 memFixture memFixture Memory.new
     reqBearerTok1 _ (by decide)⟩

/-- C7: when exactly one recognised kind matches the wrapped chain, the
translator produces the table's status — `NoResult` and `NonExistentID`
404, `Duplicate` and `InvalidDependency` 400, `Depended` 409 — with the
match's message, and when no kind matches it produces 500 with the
generic short message. -/
theorem c7_single_kind_follows_table :
    (∀ (err : GoErr) (k : Kind) (e : GoErr),
        matchingKinds err = [k] → errorsAs k err = some e →
        (ErrQueryResponse err).httpStatusCode = kindStatus k ∧
        (ErrQueryResponse err).messageText = e.errorString) ∧
    (∀ err : GoErr, matchingKinds err = [] →
        (ErrQueryResponse err).httpStatusCode = 500 ∧
        (ErrQueryResponse err).messageText = "Unhandled error.") := by
  constructor
  · intro err k e hone hAs
    have hlast : lastMatchKind err = some k := by
      unfold lastMatchKind
      rw [hone]
      rfl
    rw [errQueryResponse_eq, hlast]
    simp [hAs]
  · intro err hnone
    have hlast : lastMatchKind err = none := by
      unfold lastMatchKind
      rw [hnone]
      rfl
    rw [errQueryResponse_eq, hlast]
    simp

/-- Witness for C7 at concrete inputs: a bare `NoResultError` maps to 404
with its message, and an unrecognised sentinel maps to 500 with the
generic message. -/
theorem c7_single_kind_follows_table_witness :
    ((ErrQueryResponse (.noResult "book" .nilErr)).httpStatusCode = 404 ∧
      (ErrQueryResponse (.noResult "book" .nilErr)).messageText
        = "book does not exist") ∧
    ((ErrQueryResponse (.sentinel "boom")).httpStatusCode = 500 ∧
      (ErrQueryResponse (.sentinel "boom")).messageText = "Unhandled error.") :=
  ⟨by
    have := c7_single_kind_follows_table.1 (.noResult "book" .nilErr)
      Kind.noResult (.noResult "book" .nilErr) (by decide) (by decide)
    exact ⟨this.1, this.2⟩,
   c7_single_kind_follows_table.2 (.sentinel "boom") (by decide)⟩

/-- C8 counterexample: bcrypt truncates passwords to their first 72
bytes, so the distinct passwords `pw72` and `pw73` (which agree on their
first 72 bytes) verify against each other's hashes: the claimed
`verifyPassword(hashPassword(p1), p2) = false` fails. -/
theorem c8_counterexample_truncation :
    pw72 ≠ pw73 ∧
    Auth.Validate (Auth.Hash 10 0 pw72).1 pw73 = (true, none) := by
  decide

/-- C8 (amended): `Validate (Hash p) p` is `(true, nil)` for every
password, and `Validate (Hash p₁) p₂` returns true exactly when `p₁` and
`p₂` agree on their first 72 bytes (bcrypt's truncation limit) — in
particular it returns false, with a nil error, whenever the first 72
bytes differ. -/
theorem c8_hash_validate_roundtrip (pwCost salt : Nat) (p p₁ p₂ : List Nat) :
    Auth.Validate (Auth.Hash pwCost salt p).1 p = (true, none) ∧
    ((Auth.Validate (Auth.Hash pwCost salt p₁).1 p₂).1 = true ↔
      p₂.take 72 = p₁.take 72) ∧
    (Auth.Validate (Auth.Hash pwCost salt p₁).1 p₂).2 = none := by
  unfold Auth.Validate Auth.Hash bcryptCompareHashAndPassword
    bcryptGenerateFromPassword
  refine ⟨by simp, ?_, ?_⟩
  · by_cases h : p₂.take 72 = p₁.take 72 <;> simp [h, BcryptHash.mk.injEq]
  · by_cases h : p₂.take 72 = p₁.take 72 <;>
      simp [h, BcryptHash.mk.injEq, errMismatchedHashAndPassword]

/-- C9: the rendered user-account body and session-creation body are
unchanged when only the stored password hash changes, the user-account
body carries no `password` key at all (the `ProtectedHash` shadow field
is blanked and `omitempty` drops it), and the session-creation body nests
the account with its `PasswordHash` blanked, so no `password` key
appears there either: the hash never reaches the wire. -/
theorem c9_password_hash_never_serialized (a : Account) (h tok : String) :
    renderUserAccountBody { a with passwordHash := h }
      = renderUserAccountBody a ∧
    renderSessionCreateBody tok { a with passwordHash := h }
      = renderSessionCreateBody tok a ∧
    (renderUserAccountBody a).lookup "password" = none ∧
    renderSessionCreateBody tok a
      = [("token", .s tok),
         ("account", .o (marshalAccount { a with passwordHash := "" }))] ∧
    (marshalAccount { a with passwordHash := "" }).lookup "password" = none := by
  unfold renderUserAccountBody marshalUserAccountResponse
    NewUserAccountResponse UserAccountResponse.render renderSessionCreateBody
    marshalSessionCreateResponse NewSessionCreateResponse
    SessionCreateResponse.render marshalAccount
  refine ⟨rfl, rfl, ?_, rfl, ?_⟩ <;> simp [List.lookup]

/-- C10: `StoreSession` never errors and unconditionally overwrites the
entry at the token (leaving every other token untouched), `DeleteSession`
and `DeleteSessionsFor` always return nil, and `Auth.CreateSession`
therefore succeeds — returning the drawn token and nil — even when the
token is already present in the table. -/
theorem c10_store_never_fails (m : Memory) (tok t : String) (acc : Account)
    (A : Nat) :
    (Memory.StoreSession m tok acc).2 = none ∧
    (Memory.StoreSession m tok acc).1 t
      = (if t = tok then some ⟨acc⟩ else m t) ∧
    (Memory.DeleteSession m t).2 = none ∧
    (Memory.DeleteSessionsFor m A).2 = none ∧
    Auth.CreateSession m tok acc
      = ((Memory.StoreSession m tok acc).1, tok, none) := by
  exact ⟨rfl, rfl, rfl, rfl, rfl⟩

end Bookstore
